import Mathlib

/-!
Shallow embedding of the Microsoft OAuth automator (src/main.py).

The browser-driven parts of the program read the outside world (page URLs,
page text, element texts, click outcomes, network responses); the embedding
makes those reads explicit inputs. Machine strings are Lean Strings; the
relevant pieces of the Python standard library (substring membership, lower,
strip truthiness, urllib.parse.urlsplit query extraction, parse_qs, the
regex search for a code fragment) are modelled as executable functions.
-/

/-- Python membership test: needle in hay, substring containment on lists of
characters. The empty needle is contained in every string, as in Python. -/
def listHasSub (needle : List Char) : List Char → Bool
  | [] => needle.isEmpty
  | c :: rest => needle.isPrefixOf (c :: rest) || listHasSub needle rest

/-- Python expression needle in hay for strings. -/
def pyIn (needle hay : String) : Bool :=
  listHasSub needle.toList hay.toList

/-- Python str.lower restricted to ASCII, which covers every phrase the
program compares against. -/
def lowerStr (s : String) : String :=
  String.mk (s.toList.map Char.toLower)

/-- ASCII whitespace recognized by Python str.strip. -/
def isPySpace (c : Char) : Bool :=
  c = ' ' || c = '\t' || c = '\n' || c = '\r' || c = '\x0b' || c = '\x0c'

/-- Truthiness of s.strip in Python: some non-whitespace character remains. -/
def pyTruthyStrip (s : String) : Bool :=
  s.toList.any (fun c => !(isPySpace c))

/-- Split a character list on every occurrence of a separator, as Python
str.split with a one-character separator. -/
def splitOnChar (sep : Char) : List Char → List (List Char)
  | [] => [[]]
  | c :: rest =>
    if c = sep then [] :: splitOnChar sep rest
    else
      match splitOnChar sep rest with
      | [] => [[c]]
      | h :: t => (c :: h) :: t

/-- Split at the first occurrence of a separator, as Python str.split with
maxsplit 1; none when the separator does not occur. -/
def splitFirstChar (sep : Char) : List Char → Option (List Char × List Char)
  | [] => none
  | c :: rest =>
    if c = sep then some ([], rest)
    else
      match splitFirstChar sep rest with
      | none => none
      | some (a, b) => some (c :: a, b)

/-- Value of a hexadecimal digit. -/
def hexVal (c : Char) : Option Nat :=
  if '0' ≤ c ∧ c ≤ '9' then some (c.toNat - '0'.toNat)
  else if 'a' ≤ c ∧ c ≤ 'f' then some (c.toNat - 'a'.toNat + 10)
  else if 'A' ≤ c ∧ c ≤ 'F' then some (c.toNat - 'A'.toNat + 10)
  else none

/-- urllib.parse.unquote_plus on ASCII input: plus becomes space, a percent
followed by two hex digits decodes to that character, anything else is kept;
an invalid percent escape is left literal, as in Python. -/
def unquotePlusChars : List Char → List Char
  | [] => []
  | '+' :: rest => ' ' :: unquotePlusChars rest
  | '%' :: a :: b :: rest =>
    match hexVal a, hexVal b with
    | some x, some y => Char.ofNat (16 * x + y) :: unquotePlusChars rest
    | _, _ => '%' :: unquotePlusChars (a :: b :: rest)
  | c :: rest => c :: unquotePlusChars rest

/-- urllib.parse.parse_qsl with default options: split the query on the
ampersand, drop fields with no equals sign and fields with a blank value,
unquote names and values. -/
def qsPairsList (qs : List Char) : List (List Char × List Char) :=
  (splitOnChar '&' qs).filterMap fun nv =>
    match splitFirstChar '=' nv with
    | none => none
    | some (n, v) =>
      if v = [] then none
      else some (unquotePlusChars n, unquotePlusChars v)

/-- query_params.get(key, [None])[0] after urllib.parse.parse_qs: the first
value recorded for the key, none when the key is absent. -/
def parseQsGet (qs key : String) : Option String :=
  ((qsPairsList qs.toList).find? (fun p => p.1 == key.toList)).map
    (fun p => String.mk p.2)

/-- The query component of urllib.parse.urlparse: the part after the first
question mark of the part before the first hash. -/
def urlQuery (url : String) : String :=
  let beforeFrag := url.toList.takeWhile (fun c => c != '#')
  match splitFirstChar '?' beforeFrag with
  | none => ""
  | some (_, q) => String.mk q

/-- re.search of the pattern code=([^&]+): leftmost position where the text
code= is followed by at least one character other than an ampersand; the
capture is the maximal such run. A position where the captured run would be
empty is skipped and the search continues, as the regex engine does. -/
def codeCapture : List Char → Option String
  | [] => none
  | c :: rest =>
    if "code=".toList.isPrefixOf (c :: rest) then
      let captured := (rest.drop 4).takeWhile (fun ch => ch != '&')
      if captured = [] then codeCapture rest else some (String.mk captured)
    else codeCapture rest

/-- The polling phase of _extract_auth_code (src/main.py lines 109 to 135):
each list entry is one observation of page.url, none standing for a read
that raised and was swallowed. A code is taken from the first URL containing
both /callback and code= whose parsed query holds a code value; the list
ending models the 30 second timeout elapsing. -/
def extractPoll : List (Option String) → Option String
  | [] => none
  | none :: rest => extractPoll rest
  | some url :: rest =>
    if pyIn "/callback" url && pyIn "code=" url then
      match parseQsGet (urlQuery url) "code" with
      | some c => some c
      | none => extractPoll rest
    else extractPoll rest

/-- The last-attempt fallback of _extract_auth_code (lines 137 to 152): if
the final URL contains code= anywhere, extract with the regex; nothing else
is checked. -/
def extractFallback (finalUrl : String) : Option String :=
  if pyIn "code=" finalUrl then codeCapture finalUrl.toList else none

/-- _extract_auth_code as a whole: the poll result, then, when the poll
produced nothing, the fallback on the final URL observation (none when the
final read of page.url raised). -/
def extractAuthCode (polls : List (Option String)) (finalObs : Option String) :
    Option String :=
  match extractPoll polls with
  | some c => some c
  | none =>
    match finalObs with
    | some u => extractFallback u
    | none => none

/-!
Account Status Classifier (_check_account_status, src/main.py lines 309 to
401). Its observations of the page are an explicit record: the inner texts
of the validation-message elements, the body text, the current URL, and the
re-read URL and body text taken after the extra settle wait of the
stuck-login branch. A fault flag models any exception escaping to the
outermost handler, which returns OK.
-/

structure StatusObs where
  inlineTexts : List (Option String)
  pageText : Option String
  url : String
  stuckUrl : String
  stuckText : Option String
  fault : Bool

/-- The curated password failure phrases matched against inline validation
text (lines 338 to 344). -/
def passwordErrorPhrases : List String :=
  ["password is incorrect",
   "that password is incorrect",
   "incorrect password",
   "wrong password",
   "invalid password"]

/-- The ordered phrase table of the full page scan (lines 356 to 367), in
source order. -/
def errorIndicators : List (String × String) :=
  [("account has been locked", "ACCOUNT_LOCKED"),
   ("account is locked", "ACCOUNT_LOCKED"),
   ("temporarily locked", "ACCOUNT_LOCKED"),
   ("incorrect username or password", "INVALID_CREDENTIALS"),
   ("sign-in name or password is incorrect", "INVALID_CREDENTIALS"),
   ("that password is incorrect", "INVALID_CREDENTIALS"),
   ("password is incorrect", "INVALID_CREDENTIALS"),
   ("we couldn\x27t find an account", "ACCOUNT_NOT_FOUND"),
   ("account doesn\x27t exist", "ACCOUNT_NOT_FOUND"),
   ("invalid username or password", "INVALID_CREDENTIALS")]

/-- First matching row of the phrase table over already-lowered content. -/
def scanIndicators (lowContent : String) : Option String :=
  (errorIndicators.find? (fun p => pyIn p.1 lowContent)).map (fun p => p.2)

/-- The full page scan applied to raw page text, lowering it first, as the
classifier does. -/
def pageScanText (content : String) : Option String :=
  scanIndicators (lowerStr content)

/-- One validation element's contribution (lines 330 to 346): text present,
truthy, truthy after strip, and containing one of the password failure
phrases case-insensitively. -/
def inlineMatches (t : Option String) : Bool :=
  match t with
  | none => false
  | some s =>
    (s != "") && pyTruthyStrip s &&
      passwordErrorPhrases.any (fun p => pyIn p (lowerStr s))

/-- The page-content signal (lines 352 to 372): scanned only when the body
text is present and truthy. -/
def pageSignal (o : StatusObs) : Option String :=
  match o.pageText with
  | none => none
  | some content => if content = "" then none else pageScanText content

/-- The stuck-login branch (lines 381 to 394): if the URL still names the
generic login-post endpoint and still does after the extra wait, re-check
the re-read body text for the single phrase about an incorrect password and
return INVALID_CREDENTIALS, defaulting to INVALID_CREDENTIALS regardless;
otherwise fall through to OK. -/
def stuckCheck (o : StatusObs) : String :=
  if pyIn "login.live.com" o.url && pyIn "post.srf" o.url then
    if pyIn "login.live.com" o.stuckUrl && pyIn "post.srf" o.stuckUrl then
      match o.stuckText with
      | some fc =>
        if (fc != "") && pyIn "password is incorrect" (lowerStr fc) then
          "INVALID_CREDENTIALS"
        else "INVALID_CREDENTIALS"
      | none => "INVALID_CREDENTIALS"
    else "OK"
  else "OK"

/-- _check_account_status: inline validation texts, then page scan, then the
URL error indicator (returning only when invalid_grant is also present),
then the stuck-login branch, else OK; a fault anywhere yields OK. -/
def checkAccountStatus (o : StatusObs) : String :=
  if o.fault then "OK"
  else if o.inlineTexts.any inlineMatches then "INVALID_CREDENTIALS"
  else
    match pageSignal o with
    | some e => e
    | none =>
      if pyIn "error" (lowerStr o.url) then
        if pyIn "invalid_grant" (lowerStr o.url) then "INVALID_CREDENTIALS"
        else stuckCheck o
      else stuckCheck o

/-!
Additional Prompt Handler (_handle_additional_prompts, lines 403 to 500).
Per loop iteration the handler reads the body text and the URL; clicking
outcomes do not influence control flow (both the clicked and the unclicked
paths increment the attempt counter and loop), so an iteration observation
is the body text, the URL, and a fault flag for an exception inside the
loop body, which breaks out of the loop.
-/

structure PromptObs where
  pageText : String
  url : String
  fault : Bool

/-- Keyword set for the consent interstitial (lines 427 to 430). -/
def consentKeywords : List String :=
  ["permissions requested", "consent", "accept", "allow",
   "wants to access", "autorizzazioni", "consenso"]

/-- Keyword set for the stay-signed-in interstitial (lines 460 to 462). -/
def staySignedKeywords : List String :=
  ["stay signed in", "rimani connesso", "stay signed"]

/-- How one run of the prompt loop ended. -/
inductive PromptStop where
  | atCallback
  | noPrompt
  | fault
  | budget
deriving DecidableEq

/-- The prompt loop with remaining budget as fuel: returns how many times
the loop body ran and why it stopped. Iteration i observes obs i. -/
def promptLoop (obs : Nat → PromptObs) (i : Nat) : Nat → Nat × PromptStop
  | 0 => (0, PromptStop.budget)
  | Nat.succ fuel =>
    let o := obs i
    if o.fault then (1, PromptStop.fault)
    else if pyIn "/callback" o.url then (1, PromptStop.atCallback)
    else if consentKeywords.any (fun k => pyIn k (lowerStr o.pageText)) ||
            staySignedKeywords.any (fun k => pyIn k (lowerStr o.pageText)) then
      let r := promptLoop obs (i + 1) fuel
      (r.1 + 1, r.2)
    else (1, PromptStop.noPrompt)

/-- _handle_additional_prompts: the loop starts with attempt 0 against the
budget max_attempts, which is 3. -/
def handleAdditionalPrompts (obs : Nat → PromptObs) : Nat × PromptStop :=
  promptLoop obs 0 3

/-!
The login state machine (automate_login, lines 47 to 100) and the HTTP
front door (get_refresh_token, lines 540 to 576). A session's environment
collects the outside-world observations of every step: exception messages
of the email and password steps (the two steps that raise), the classifier
observation, an exception message for the waits preceding the prompt loop,
the per-iteration prompt observations, the extraction poll observations and
the final URL read. Exceptions raised by a step are caught by
automate_login, which stores an automation error; the prompt loop and the
extractor swallow their own faults and never raise.
-/

structure LoginEnv where
  emailFault : Option String
  passwordFault : Option String
  status : StatusObs
  promptsPreFault : Option String
  promptObs : Nat → PromptObs
  polls : List (Option String)
  finalObs : Option String

/-- Completed-session state: the auth_code and error fields of the
automator after automate_login returns, plus a trace of whether the prompt
handler and the extractor ran (and how the prompt loop ended). -/
structure SessionRun where
  auth_code : Option String
  error : Option String
  promptRun : Option (Nat × PromptStop)
  extractRan : Bool

/-- automate_login: email entry, password entry, status check with an early
terminal error on a non-OK outcome, prompt handling, code extraction; any
exception raised by a step becomes an automation error; the error message
set by a failed extraction is the one of line 155. -/
def automateLogin (env : LoginEnv) : SessionRun :=
  match env.emailFault with
  | some m => ⟨none, some ("Automation error: " ++ m), none, false⟩
  | none =>
    match env.passwordFault with
    | some m => ⟨none, some ("Automation error: " ++ m), none, false⟩
    | none =>
      if checkAccountStatus env.status != "OK" then
        ⟨none, some ("Account error: " ++ checkAccountStatus env.status),
          none, false⟩
      else
        match env.promptsPreFault with
        | some m => ⟨none, some ("Automation error: " ++ m), none, false⟩
        | none =>
          let pr := handleAdditionalPrompts env.promptObs
          match extractAuthCode env.polls env.finalObs with
          | some c => ⟨some c, none, some pr, true⟩
          | none =>
            ⟨none, some "Unable to extract authorization code", some pr, true⟩

/-- Message payload of a result: a plain string or, for the token exchange
failure, the raw parsed provider body. -/
inductive Payload where
  | text (s : String)
  | body (td : List (String × String))
deriving DecidableEq

/-- Result of exchange_code_for_token: the success record of lines 523 to
530 or an error record. -/
inductive ExchangeResult where
  | success (refresh_token access_token expires_in scopeVal : Option String)
      (token_type obtained_at : String)
  | failure (error : String) (message : Payload)
deriving DecidableEq

/-- token_data.get(key) on the parsed body, modelled as lookup in a finite
list of present keys and their values. -/
def tdGet (td : List (String × String)) (k : String) : Option String :=
  (td.find? (fun p => p.1 == k)).map (fun p => p.2)

/-- The Python membership test key in token_data. -/
def tdMem (td : List (String × String)) (k : String) : Bool :=
  td.any (fun p => p.1 == k)

/-- exchange_code_for_token (lines 502 to 536): a stored error reports
AUTOMATION_FAILED; a missing code reports AUTH_CODE_MISSING; otherwise one
POST whose outcome is either a fault message (REQUEST_FAILED) or a parsed
body, succeeding exactly when the body holds a refresh_token key and
reporting TOKEN_EXCHANGE_FAILED with the raw body otherwise. now stands for
datetime.now().isoformat(). -/
def exchangeCodeForToken (error : Option String) (authCode : Option String)
    (net : Except String (List (String × String))) (now : String) :
    ExchangeResult :=
  match error with
  | some m => ExchangeResult.failure "AUTOMATION_FAILED" (Payload.text m)
  | none =>
    match authCode with
    | none =>
      ExchangeResult.failure "AUTH_CODE_MISSING"
        (Payload.text "Unable to obtain authorization code.")
    | some _ =>
      match net with
      | Except.error e => ExchangeResult.failure "REQUEST_FAILED" (Payload.text e)
      | Except.ok td =>
        if tdMem td "refresh_token" then
          ExchangeResult.success (tdGet td "refresh_token")
            (tdGet td "access_token") (tdGet td "expires_in")
            (tdGet td "scope") ((tdGet td "token_type").getD "Bearer") now
        else
          ExchangeResult.failure "TOKEN_EXCHANGE_FAILED" (Payload.body td)

/-- What the front door hands back: HTTP status, body, and whether the
token exchange was invoked. -/
structure FrontDoorResult where
  httpStatus : Nat
  payload : ExchangeResult
  exchangeInvoked : Bool

/-- get_refresh_token after input validation (lines 563 to 576): run the
automation; a stored error short-circuits to AUTOMATION_FAILED with status
500 without invoking the exchange; otherwise exchange the code, mapping an
error record to 500 and a success record to 200. -/
def getRefreshToken (env : LoginEnv)
    (net : Except String (List (String × String))) (now : String) :
    FrontDoorResult :=
  match (automateLogin env).error with
  | some m =>
    ⟨500, ExchangeResult.failure "AUTOMATION_FAILED" (Payload.text m), false⟩
  | none =>
    match exchangeCodeForToken none (automateLogin env).auth_code net now with
    | ExchangeResult.success rt at_ ei sc tt oa =>
      ⟨200, ExchangeResult.success rt at_ ei sc tt oa, true⟩
    | ExchangeResult.failure k m =>
      ⟨500, ExchangeResult.failure k m, true⟩

/-!
Concrete observation records used by the counterexamples and witnesses, and
the claim-side phrase table used to compare the claimed scan order with the
source order.
-/

/-- Modelled from the spec claim about the scan order (its wording groups
the rows as locked-account phrases, then incorrect-credential phrases, then
no-account phrases): the same ten rows as errorIndicators, regrouped in
that claimed order. -/
def claimOrderIndicators : List (String × String) :=
  [("account has been locked", "ACCOUNT_LOCKED"),
   ("account is locked", "ACCOUNT_LOCKED"),
   ("temporarily locked", "ACCOUNT_LOCKED"),
   ("incorrect username or password", "INVALID_CREDENTIALS"),
   ("sign-in name or password is incorrect", "INVALID_CREDENTIALS"),
   ("that password is incorrect", "INVALID_CREDENTIALS"),
   ("password is incorrect", "INVALID_CREDENTIALS"),
   ("invalid username or password", "INVALID_CREDENTIALS"),
   ("we couldn\x27t find an account", "ACCOUNT_NOT_FOUND"),
   ("account doesn\x27t exist", "ACCOUNT_NOT_FOUND")]

/-- First matching row of the claim-side table over raw page text. -/
def scanClaimOrder (content : String) : Option String :=
  (claimOrderIndicators.find? (fun p => pyIn p.1 (lowerStr content))).map
    (fun p => p.2)

/-- An authorize-endpoint URL containing neither /callback nor code= nor an
error indicator. -/
def urlNoCode : String :=
  "https://login.microsoftonline.com/common/oauth2/v2.0/authorize?client_id=8caf"

/-- A classifier observation with no signal at all. -/
def obsOK : StatusObs :=
  ⟨[], some "Pick an account to continue", urlNoCode, "", none, false⟩

/-- A session in which the code never appears: every poll sees the
authorize URL and so does the final read. -/
def envC1 : LoginEnv :=
  ⟨none, none, obsOK, none,
   (fun _ => ⟨"Signing you in", urlNoCode, false⟩),
   List.replicate 60 (some urlNoCode), some urlNoCode⟩

/-- A final URL that carries a code fragment but is not on the redirect
path. -/
def strayCodeUrl : String :=
  "https://login.live.com/landing?flow=done&code=abc123&state=12345"

/-- A classifier observation of a session stuck on the login-post endpoint
whose re-read page text reports a locked account. -/
def obsC4 : StatusObs :=
  ⟨[], some "Signing you in, please wait",
   "https://login.live.com/ppsecure/post.srf?id=42",
   "https://login.live.com/ppsecure/post.srf?id=42",
   some "Your account has been locked. Visit the recovery page.", false⟩

/-- A classifier observation whose page text reports an incorrect
password. -/
def obsBadPw : StatusObs :=
  ⟨[], some "That password is incorrect. Try again.",
   "https://login.live.com/ppsecure/post.srf", "", none, false⟩

/-- A session that fails the status check with INVALID_CREDENTIALS. -/
def envC6 : LoginEnv :=
  ⟨none, none, obsBadPw, none, (fun _ => ⟨"", "", false⟩), [], none⟩

/-- Prompt observations that show the consent page once and then land on
the callback. -/
def promptObsHappy : Nat → PromptObs
  | 0 => ⟨"Permissions requested: this app wants to access your info",
          "https://login.microsoftonline.com/common/oauth2/v2.0/authorize", false⟩
  | _ => ⟨"Callback reached. You can close this window.",
          "https://service.example/callback?code=deadbeef&state=12345", false⟩

/-- Prompt observations that never show a recognized prompt. -/
def promptObsNone : Nat → PromptObs
  | _ => ⟨"Signing you in", urlNoCode, false⟩

/-!
Helper lemmas shared by the claim theorems.
-/

/-- Unquoting a nonempty character list yields a nonempty list: every
branch of unquote emits at least its leading character. -/
theorem unquotePlusChars_ne_nil :
    ∀ cs : List Char, cs ≠ [] → unquotePlusChars cs ≠ [] := by
  intro cs
  induction cs using unquotePlusChars.induct <;>
    (simp [unquotePlusChars]; try (split <;> simp_all))

/-- Every value stored by the query parser is nonempty: blank raw values
are dropped before unquoting and unquoting preserves nonemptiness. -/
theorem qsPairsList_snd_ne_nil {qs : List Char} {p : List Char × List Char}
    (hp : p ∈ qsPairsList qs) : p.2 ≠ [] := by
  rcases List.mem_filterMap.mp hp with ⟨nv, _, hf⟩
  split at hf
  · exact absurd hf (by simp)
  · rename_i n v heq
    split at hf
    · exact absurd hf (by simp)
    · rename_i hv
      have h2 := (Option.some.injEq _ _).mp hf
      rw [← h2]
      exact unquotePlusChars_ne_nil v hv

/-- A parsed query value is never the empty string. -/
theorem parseQsGet_ne_empty {qs key v : String}
    (h : parseQsGet qs key = some v) : v ≠ "" := by
  unfold parseQsGet at h
  rcases hf : (qsPairsList qs.toList).find? (fun p => p.1 == key.toList) with
      _ | ⟨p⟩ <;> rw [hf] at h
  · exact absurd h (by simp)
  · have hp : p ∈ qsPairsList qs.toList := List.mem_of_find?_eq_some hf
    have hne : p.2 ≠ [] := qsPairsList_snd_ne_nil hp
    simp only [Option.map_some'] at h
    have hv : String.mk p.2 = v := (Option.some.injEq _ _).mp h
    intro hcon
    rw [hcon] at hv
    exact hne (congrArg String.data hv)

/-- A code captured by the fallback regex is never the empty string. -/
theorem codeCapture_ne_empty :
    ∀ {cs : List Char} {v : String}, codeCapture cs = some v → v ≠ "" := by
  intro cs
  induction cs with
  | nil => intro v h; exact absurd h (by simp [codeCapture])
  | cons c rest ih =>
    intro v h
    rw [codeCapture] at h
    by_cases hpre : "code=".toList.isPrefixOf (c :: rest) = true
    · rw [if_pos hpre] at h
      by_cases hcap : (rest.drop 4).takeWhile (fun ch => ch != '&') = []
      · rw [if_pos hcap] at h
        exact ih h
      · rw [if_neg hcap] at h
        have hv := ((Option.some.injEq _ _).mp h).symm
        intro hcon
        rw [hcon] at hv
        exact hcap (congrArg String.data hv.symm)
    · rw [if_neg hpre] at h
      exact ih h

/-- Where a polled code comes from: some observed URL containing both the
redirect path marker and a code fragment, whose parsed query yields exactly
that code. -/
theorem extractPoll_spec :
    ∀ {polls : List (Option String)} {c : String}, extractPoll polls = some c →
      ∃ url : String, (some url) ∈ polls ∧ pyIn "/callback" url = true ∧
        pyIn "code=" url = true ∧ parseQsGet (urlQuery url) "code" = some c := by
  intro polls
  induction polls with
  | nil => intro c h; exact absurd h (by simp [extractPoll])
  | cons p rest ih =>
    intro c h
    rcases p with _ | ⟨url⟩
    · rw [extractPoll] at h
      rcases ih h with ⟨u, hmem, h1, h2, h3⟩
      exact ⟨u, List.mem_cons_of_mem _ hmem, h1, h2, h3⟩
    · rw [extractPoll] at h
      by_cases hcb : (pyIn "/callback" url && pyIn "code=" url) = true
      · rw [if_pos hcb] at h
        rcases hq : parseQsGet (urlQuery url) "code" with _ | ⟨c0⟩ <;>
            rw [hq] at h
        · rcases ih h with ⟨u, hmem, h1, h2, h3⟩
          exact ⟨u, List.mem_cons_of_mem _ hmem, h1, h2, h3⟩
        · have hc : c0 = c := (Option.some.injEq _ _).mp h
          rcases Bool.and_eq_true_iff.mp hcb with ⟨hb1, hb2⟩
          exact ⟨url, List.mem_cons_self _ _, hb1, hb2, by rw [hq, hc]⟩
      · rw [if_neg hcb] at h
        rcases ih h with ⟨u, hmem, h1, h2, h3⟩
        exact ⟨u, List.mem_cons_of_mem _ hmem, h1, h2, h3⟩

/-- An extracted code is never the empty string, whichever path produced
it. -/
theorem extractAuthCode_ne_empty {polls : List (Option String)}
    {finalObs : Option String} {c : String}
    (h : extractAuthCode polls finalObs = some c) : c ≠ "" := by
  unfold extractAuthCode at h
  split at h
  · rename_i c0 hp
    have hc : c0 = c := (Option.some.injEq _ _).mp h
    rcases extractPoll_spec hp with ⟨_, _, _, _, hq⟩
    exact hc ▸ parseQsGet_ne_empty hq
  · split at h
    · rename_i u
      unfold extractFallback at h
      split at h
      · exact codeCapture_ne_empty h
      · exact absurd h (by simp)
    · exact absurd h (by simp)

/-- The prompt loop runs its body at most fuel times. -/
theorem promptLoop_fst_le (obs : Nat → PromptObs) :
    ∀ (fuel i : Nat), (promptLoop obs i fuel).1 ≤ fuel := by
  intro fuel
  induction fuel with
  | zero => intro i; simp [promptLoop]
  | succ f ih =>
    intro i
    rw [promptLoop]
    split
    · simp
    · split
      · simp
      · split
        · have := ih (i + 1)
          simp only []
          omega
        · simp

/-- find? returns the row at the first index whose predicate holds. -/
theorem find?_of_first {α : Type} (p : α → Bool) :
    ∀ (l : List α) (i : Nat) (h : i < l.length),
      p (l.get ⟨i, h⟩) = true →
      (∀ j (hj : j < i), p (l.get ⟨j, Nat.lt_trans hj h⟩) = false) →
      l.find? p = some (l.get ⟨i, h⟩) := by
  intro l
  induction l with
  | nil => intro i h; exact absurd h (by simp)
  | cons a rest ih =>
    intro i h hpi hprev
    cases i with
    | zero =>
      simp only [List.get] at hpi
      simp [List.find?, hpi]
    | succ i0 =>
      have ha : p a = false := by
        have := hprev 0 (Nat.succ_pos i0)
        simpa using this
      have hlen : i0 < rest.length := by
        have := h
        simp at this
        omega
      have hget : p (rest.get ⟨i0, hlen⟩) = true := by simpa using hpi
      have hprev0 : ∀ j (hj : j < i0),
          p (rest.get ⟨j, Nat.lt_trans hj hlen⟩) = false := by
        intro j hj
        have := hprev (j + 1) (by omega)
        simpa using this
      have := ih i0 hlen hget hprev0
      simp [List.find?, ha, this]

/-- The completed-session dichotomy: automate_login always ends with either
a nonempty code and no error or no code and an error. -/
theorem automateLogin_dichotomy (env : LoginEnv) :
    ((automateLogin env).error = none ∧
      ∃ c, (automateLogin env).auth_code = some c ∧ c ≠ "") ∨
    ((automateLogin env).auth_code = none ∧
      ∃ m, (automateLogin env).error = some m) := by
  unfold automateLogin
  split
  · exact Or.inr ⟨rfl, _, rfl⟩
  · split
    · exact Or.inr ⟨rfl, _, rfl⟩
    · split
      · exact Or.inr ⟨rfl, _, rfl⟩
      · split
        · exact Or.inr ⟨rfl, _, rfl⟩
        · split
          · rename_i c hext
            exact Or.inl ⟨rfl, c, rfl, extractAuthCode_ne_empty hext⟩
          · exact Or.inr ⟨rfl, _, rfl⟩

/-- When the session error is none, a code was extracted. -/
theorem automateLogin_error_none_code {env : LoginEnv}
    (h : (automateLogin env).error = none) :
    ∃ c, (automateLogin env).auth_code = some c := by
  rcases automateLogin_dichotomy env with ⟨_, c, hc, _⟩ | ⟨_, m, hm⟩
  · exact ⟨c, hc⟩
  · rw [hm] at h
    exact absurd h (by simp)

/-- A key the body contains is found by lookup. -/
theorem tdGet_isSome_of_tdMem {td : List (String × String)} {k : String}
    (h : tdMem td k = true) : (tdGet td k).isSome = true := by
  induction td with
  | nil => exact absurd h (by simp [tdMem])
  | cons p rest ih =>
    unfold tdMem at h
    rw [List.any_cons] at h
    unfold tdGet
    rw [List.find?]
    by_cases hk : (p.1 == k) = true
    · rw [hk]
      simp
    · rw [Bool.or_eq_true] at h
      rcases h with h | h
      · exact absurd h hk
      · rw [Bool.not_eq_true] at hk
        rw [hk]
        exact ih h

/-- When the stored error is none and a code is present, a failure result
of the exchange can only be transport or token-exchange failure. -/
theorem exchangeCodeForToken_some_kinds {c now k : String} {p : Payload}
    {net : Except String (List (String × String))}
    (h : exchangeCodeForToken none (some c) net now =
      ExchangeResult.failure k p) :
    k = "REQUEST_FAILED" ∨ k = "TOKEN_EXCHANGE_FAILED" := by
  rcases net with e | td
  · left
    have h2 : ExchangeResult.failure "REQUEST_FAILED" (Payload.text e) =
        ExchangeResult.failure k p := h
    exact ((ExchangeResult.failure.injEq _ _ _ _).mp h2).1.symm
  · have h2 : (if tdMem td "refresh_token" = true then
        ExchangeResult.success (tdGet td "refresh_token")
          (tdGet td "access_token") (tdGet td "expires_in") (tdGet td "scope")
          ((tdGet td "token_type").getD "Bearer") now
      else ExchangeResult.failure "TOKEN_EXCHANGE_FAILED" (Payload.body td)) =
        ExchangeResult.failure k p := h
    split at h2
    · exact absurd h2 (by simp)
    · right
      exact ((ExchangeResult.failure.injEq _ _ _ _).mp h2).1.symm

/-!
Claim theorems.
-/

/-- C1: the spec says a session whose poll loop exhausts its timeout with
no code and whose final URL has no code fragment ends with AUTH_CODE_MISSING
reported to the caller. The code disagrees: _extract_auth_code stores an
error, and the front door reports every stored error as AUTOMATION_FAILED,
so the caller sees AUTOMATION_FAILED with the message of line 155, and no
run of the front door can ever report AUTH_CODE_MISSING. -/
theorem C1_missing_code_reports_automation_failed :
    ((getRefreshToken envC1 (Except.ok []) "2026-01-01T00:00:00").payload =
      ExchangeResult.failure "AUTOMATION_FAILED"
        (Payload.text "Unable to extract authorization code")) ∧
    ((getRefreshToken envC1 (Except.ok []) "2026-01-01T00:00:00").httpStatus =
      500) ∧
    extractPoll envC1.polls = none ∧ pyIn "code=" urlNoCode = false ∧
    (∀ (env : LoginEnv) (net : Except String (List (String × String)))
        (now : String) (p : Payload),
      (getRefreshToken env net now).payload ≠
        ExchangeResult.failure "AUTH_CODE_MISSING" p) := by
  refine ⟨by decide, by decide, by decide, by decide, ?_⟩
  intro env net now p
  unfold getRefreshToken
  split
  · rename_i m hm
    intro hcon
    exact absurd ((ExchangeResult.failure.injEq _ _ _ _).mp hcon).1 (by decide)
  · rename_i hq
    rcases automateLogin_error_none_code hq with ⟨c, hc⟩
    split
    · rename_i rt at_ ei sc tt oa hx
      intro hcon
      exact ExchangeResult.noConfusion hcon
    · rename_i k m hx
      rw [hc] at hx
      intro hcon
      have h1 := ((ExchangeResult.failure.injEq _ _ _ _).mp hcon).1
      rcases exchangeCodeForToken_some_kinds hx with hk | hk <;>
        (rw [hk] at h1; exact absurd h1 (by decide))

/-- C1 witness: the unreachability statement applied at the concrete
no-code session. -/
theorem C1_missing_code_witness :
    (getRefreshToken envC1 (Except.ok []) "2026-01-01T00:00:00").payload ≠
      ExchangeResult.failure "AUTH_CODE_MISSING"
        (Payload.text "Unable to obtain authorization code.") :=
  C1_missing_code_reports_automation_failed.2.2.2.2 envC1 (Except.ok [])
    "2026-01-01T00:00:00"
    (Payload.text "Unable to obtain authorization code.")

/-- C2 counterexample: a session whose poll loop never sees a callback URL
but whose final URL carries a code fragment without the redirect path still
records a code, refuting the claim that a code is recorded only from URLs
containing the redirect path. -/
theorem C2_fallback_path_counterexample :
    extractAuthCode [some "https://login.live.com/ppsecure/post.srf?bk=1"]
        (some strayCodeUrl) = some "abc123" ∧
    pyIn "/callback" strayCodeUrl = false := by
  exact ⟨by decide, by decide⟩

/-- C2 amended: during the poll loop a code is indeed recorded only from a
URL containing the redirect path marker and a code fragment, but the
timeout fallback keys on the code fragment alone; what holds of the
fallback is only that a URL with no code fragment yields nothing. -/
theorem C2_code_source_characterization :
    (∀ (polls : List (Option String)) (c : String),
      extractPoll polls = some c →
        ∃ url : String, (some url) ∈ polls ∧ pyIn "/callback" url = true ∧
          pyIn "code=" url = true) ∧
    (∀ url : String, pyIn "code=" url = false → extractFallback url = none) := by
  constructor
  · intro polls c h
    rcases extractPoll_spec h with ⟨u, hm, h1, h2, _⟩
    exact ⟨u, hm, h1, h2⟩
  · intro url h
    unfold extractFallback
    rw [h]
    simp

/-- C2 witness: both parts applied at concrete inputs. -/
theorem C2_code_source_witness :
    (∃ url : String,
      (some url) ∈
          [some "https://service.example/callback?code=zzz&state=12345"] ∧
        pyIn "/callback" url = true ∧ pyIn "code=" url = true) ∧
    extractFallback "https://login.live.com/ppsecure/post.srf" = none :=
  ⟨C2_code_source_characterization.1
      [some "https://service.example/callback?code=zzz&state=12345"] "zzz"
      (by decide),
   C2_code_source_characterization.2 "https://login.live.com/ppsecure/post.srf"
      (by decide)⟩

/-- C3: every completed session ends with exactly one of a nonempty
authorization code and a terminal error: one of the two always holds and
they never hold together. -/
theorem C3_exactly_one_of_code_or_error (env : LoginEnv) :
    (((automateLogin env).error = none ∧
        ∃ c, (automateLogin env).auth_code = some c ∧ c ≠ "") ∨
      ((automateLogin env).auth_code = none ∧
        ∃ m, (automateLogin env).error = some m)) ∧
    ¬((∃ c, (automateLogin env).auth_code = some c) ∧
      (∃ m, (automateLogin env).error = some m)) := by
  constructor
  · exact automateLogin_dichotomy env
  · rintro ⟨⟨c, hc⟩, ⟨m, hm⟩⟩
    rcases automateLogin_dichotomy env with ⟨he, _⟩ | ⟨ha, _⟩
    · rw [he] at hm
      exact Option.noConfusion hm
    · rw [ha] at hc
      exact Option.noConfusion hc

/-- C4 counterexample: a session stuck on the login-post endpoint whose
re-read page text reports a locked account is still classified
INVALID_CREDENTIALS, although the phrase table maps the very same text to
ACCOUNT_LOCKED; the claimed full re-scan does not happen. -/
theorem C4_stuck_rescan_counterexample :
    checkAccountStatus obsC4 = "INVALID_CREDENTIALS" ∧
    pageScanText "Your account has been locked. Visit the recovery page." =
      some "ACCOUNT_LOCKED" := by
  exact ⟨by decide, by decide⟩

/-- C4 amended: when no earlier signal fires and the session is stuck on
the login-post endpoint both before and after the extra settle wait, the
classifier returns INVALID_CREDENTIALS whatever the re-read page text says:
the re-check looks only for the single incorrect-password phrase, and both
its outcomes are INVALID_CREDENTIALS. -/
theorem C4_stuck_defaults_invalid_credentials (o : StatusObs)
    (hf : o.fault = false)
    (hin : o.inlineTexts.any inlineMatches = false)
    (hpage : pageSignal o = none)
    (hig : pyIn "invalid_grant" (lowerStr o.url) = false)
    (hstuck1 : (pyIn "login.live.com" o.url && pyIn "post.srf" o.url) = true)
    (hstuck2 :
      (pyIn "login.live.com" o.stuckUrl && pyIn "post.srf" o.stuckUrl) = true) :
    checkAccountStatus o = "INVALID_CREDENTIALS" := by
  have hsc : stuckCheck o = "INVALID_CREDENTIALS" := by
    unfold stuckCheck
    rw [hstuck1, hstuck2]
    simp only [if_true]
    split
    · split <;> rfl
    · rfl
  unfold checkAccountStatus
  rw [hf, hin, hpage]
  simp only [Bool.false_eq_true, if_false]
  rw [hig]
  by_cases herr : pyIn "error" (lowerStr o.url) = true <;> simp [herr, hsc]

/-- C4 witness: a stuck session with inconclusive re-read text classifies
as INVALID_CREDENTIALS. -/
theorem C4_stuck_witness :
    checkAccountStatus
        ⟨[], some "Still signing you in",
         "https://login.live.com/ppsecure/post.srf?ct=17",
         "https://login.live.com/ppsecure/post.srf?ct=18",
         some "Still working on it", false⟩ = "INVALID_CREDENTIALS" :=
  C4_stuck_defaults_invalid_credentials
    ⟨[], some "Still signing you in",
     "https://login.live.com/ppsecure/post.srf?ct=17",
     "https://login.live.com/ppsecure/post.srf?ct=18",
     some "Still working on it", false⟩
    (by decide) (by decide) (by decide) (by decide) (by decide) (by decide)

/-- C5 counterexample: page text matching both a no-account phrase and the
final incorrect-credential phrase. The code table, whose last row is the
phrase about an invalid username or password, classifies ACCOUNT_NOT_FOUND;
the claimed grouping, with every credential phrase before the no-account
phrases, would classify INVALID_CREDENTIALS. -/
theorem C5_table_order_counterexample :
    pageScanText "account doesn\x27t exist - invalid username or password" =
      some "ACCOUNT_NOT_FOUND" ∧
    scanClaimOrder "account doesn\x27t exist - invalid username or password" =
      some "INVALID_CREDENTIALS" ∧
    checkAccountStatus
        ⟨[], some "account doesn\x27t exist - invalid username or password",
         "https://login.microsoftonline.com/common", "", none, false⟩ =
      "ACCOUNT_NOT_FOUND" := by
  exact ⟨by decide, by decide, by decide⟩

/-- C5 amended: the full-page scan is a pure case-insensitive substring
lookup over the fixed source-ordered table in which the first matching row
wins, and its outcome depends only on the lowered page text; the table
order is the source order, whose last row is an incorrect-credential
phrase placed after the no-account rows. -/
theorem C5_scan_deterministic_first_match :
    (∀ s t : String, lowerStr s = lowerStr t →
      pageScanText s = pageScanText t) ∧
    (∀ (content : String) (i : Nat) (h : i < errorIndicators.length),
      pyIn (errorIndicators.get ⟨i, h⟩).1 (lowerStr content) = true →
      (∀ j (hj : j < i),
        pyIn (errorIndicators.get ⟨j, Nat.lt_trans hj h⟩).1 (lowerStr content) =
          false) →
      pageScanText content = some (errorIndicators.get ⟨i, h⟩).2) := by
  constructor
  · intro s t h
    unfold pageScanText
    rw [h]
  · intro content i h hpi hprev
    unfold pageScanText scanIndicators
    rw [find?_of_first (fun p => pyIn p.1 (lowerStr content)) errorIndicators
      i h hpi hprev]
    simp

/-- C5 witness: both parts applied at concrete inputs; the first-match part
fires on the third row of the table. -/
theorem C5_scan_witness :
    pageScanText "YOUR ACCOUNT HAS been temporarily locked" =
      pageScanText "your account has been Temporarily Locked" ∧
    pageScanText "Account temporarily locked for your protection" =
      some (errorIndicators.get ⟨2, by decide⟩).2 := by
  constructor
  · exact C5_scan_deterministic_first_match.1
      "YOUR ACCOUNT HAS been temporarily locked"
      "your account has been Temporarily Locked" (by decide)
  · refine C5_scan_deterministic_first_match.2
      "Account temporarily locked for your protection" 2 (by decide)
      (by decide) ?_
    intro j hj
    interval_cases j
    · show pyIn (errorIndicators.get ⟨0, by decide⟩).1
        (lowerStr "Account temporarily locked for your protection") = false
      decide
    · show pyIn (errorIndicators.get ⟨1, by decide⟩).1
        (lowerStr "Account temporarily locked for your protection") = false
      decide

/-- C6: a non-OK classification after password submission terminates the
session with that outcome in the error message, skips prompt resolution and
code extraction, never invokes the token exchange, and reaches the caller
as AUTOMATION_FAILED with status 500. -/
theorem C6_nonok_status_terminates_failed (env : LoginEnv)
    (net : Except String (List (String × String))) (now : String)
    (he : env.emailFault = none) (hp : env.passwordFault = none)
    (hs : checkAccountStatus env.status ≠ "OK") :
    (automateLogin env).error =
      some ("Account error: " ++ checkAccountStatus env.status) ∧
    (automateLogin env).promptRun = none ∧
    (automateLogin env).extractRan = false ∧
    (getRefreshToken env net now).payload =
      ExchangeResult.failure "AUTOMATION_FAILED"
        (Payload.text ("Account error: " ++ checkAccountStatus env.status)) ∧
    (getRefreshToken env net now).exchangeInvoked = false ∧
    (getRefreshToken env net now).httpStatus = 500 := by
  have hbne : (checkAccountStatus env.status != "OK") = true := bne_iff_ne.mpr hs
  have hal : automateLogin env =
      ⟨none, some ("Account error: " ++ checkAccountStatus env.status),
        none, false⟩ := by
    simp only [automateLogin, he, hp, hbne, if_true]
  have hgr : getRefreshToken env net now =
      ⟨500, ExchangeResult.failure "AUTOMATION_FAILED"
        (Payload.text ("Account error: " ++ checkAccountStatus env.status)),
        false⟩ := by
    unfold getRefreshToken
    rw [hal]
  refine ⟨?_, ?_, ?_, ?_, ?_, ?_⟩ <;> simp [hal, hgr]

/-- C6 witness: the concrete incorrect-password session. -/
theorem C6_nonok_witness :
    (automateLogin envC6).error =
      some ("Account error: " ++ checkAccountStatus envC6.status) ∧
    (automateLogin envC6).promptRun = none ∧
    (automateLogin envC6).extractRan = false ∧
    (getRefreshToken envC6 (Except.ok []) "2026-01-01T00:00:00").payload =
      ExchangeResult.failure "AUTOMATION_FAILED"
        (Payload.text ("Account error: " ++ checkAccountStatus envC6.status)) ∧
    (getRefreshToken envC6 (Except.ok []) "2026-01-01T00:00:00").exchangeInvoked =
      false ∧
    (getRefreshToken envC6 (Except.ok []) "2026-01-01T00:00:00").httpStatus =
      500 :=
  C6_nonok_status_terminates_failed envC6 (Except.ok []) "2026-01-01T00:00:00"
    rfl rfl (by decide)

/-- C7: the classifier returns OK whenever an internal fault occurs, and
returns OK when no signal source fires: no inline validation match, no
page-text table match, no invalid-grant URL indicator, and not stuck on the
login-post page. -/
theorem C7_classifier_defaults_ok :
    (∀ o : StatusObs, o.fault = true → checkAccountStatus o = "OK") ∧
    (∀ o : StatusObs, o.fault = false →
      o.inlineTexts.any inlineMatches = false →
      pageSignal o = none →
      pyIn "invalid_grant" (lowerStr o.url) = false →
      (pyIn "login.live.com" o.url && pyIn "post.srf" o.url) = false →
      checkAccountStatus o = "OK") := by
  constructor
  · intro o hf
    unfold checkAccountStatus
    rw [hf]
    simp
  · intro o hf hin hpage hig hstuck
    have hsc : stuckCheck o = "OK" := by
      unfold stuckCheck
      rw [hstuck]
      simp
    unfold checkAccountStatus
    rw [hf, hin, hpage]
    simp only [Bool.false_eq_true, if_false]
    rw [hig]
    by_cases herr : pyIn "error" (lowerStr o.url) = true <;> simp [herr, hsc]

/-- C7 witness: a faulting observation and a signal-free observation both
classify OK. -/
theorem C7_classifier_ok_witness :
    checkAccountStatus ⟨[], none, "", "", none, true⟩ = "OK" ∧
    checkAccountStatus obsOK = "OK" :=
  ⟨C7_classifier_defaults_ok.1 ⟨[], none, "", "", none, true⟩ rfl,
   C7_classifier_defaults_ok.2 obsOK rfl (by decide) (by decide) (by decide)
     (by decide)⟩

/-- C8: the prompt handler runs its loop body at most 3 times; it stops
after one iteration when the URL already contains the redirect path marker,
and after one iteration when neither the consent nor the stay-signed-in
keyword set matches; and whenever the machine reaches the handler, code
extraction runs afterwards regardless of how the handler stopped, budget
exhaustion included. -/
theorem C8_prompt_handler_bounded :
    (∀ obs : Nat → PromptObs, (handleAdditionalPrompts obs).1 ≤ 3) ∧
    (∀ obs : Nat → PromptObs, (obs 0).fault = false →
      pyIn "/callback" (obs 0).url = true →
      handleAdditionalPrompts obs = (1, PromptStop.atCallback)) ∧
    (∀ obs : Nat → PromptObs, (obs 0).fault = false →
      pyIn "/callback" (obs 0).url = false →
      consentKeywords.any (fun k => pyIn k (lowerStr (obs 0).pageText)) =
        false →
      staySignedKeywords.any (fun k => pyIn k (lowerStr (obs 0).pageText)) =
        false →
      handleAdditionalPrompts obs = (1, PromptStop.noPrompt)) ∧
    (∀ env : LoginEnv, env.emailFault = none → env.passwordFault = none →
      checkAccountStatus env.status = "OK" → env.promptsPreFault = none →
      (automateLogin env).extractRan = true ∧
      (automateLogin env).promptRun =
        some (handleAdditionalPrompts env.promptObs)) := by
  have h3 : (3 : Nat) = Nat.succ 2 := rfl
  refine ⟨?_, ?_, ?_, ?_⟩
  · intro obs
    exact promptLoop_fst_le obs 3 0
  · intro obs hf hcb
    unfold handleAdditionalPrompts
    rw [h3, promptLoop]
    simp [hf, hcb]
  · intro obs hf hcb hc hsy
    unfold handleAdditionalPrompts
    rw [h3, promptLoop]
    simp [hf, hcb, hc, hsy]
  · intro env he hp hst hpre
    have hbne : (checkAccountStatus env.status != "OK") = false := by
      simp [hst]
    constructor <;>
      · simp only [automateLogin, he, hp, hbne, Bool.false_eq_true, if_false,
          hpre]
        split <;> rfl

/-- C8 witness: the three handler statements at concrete observations and
the proceeds-to-extraction statement at the concrete no-code session. -/
theorem C8_prompt_handler_witness :
    (handleAdditionalPrompts promptObsHappy).1 ≤ 3 ∧
    handleAdditionalPrompts
        (fun _ => ⟨"Callback reached. You can close this window.",
          "https://service.example/callback?code=q1&state=12345", false⟩) =
      (1, PromptStop.atCallback) ∧
    handleAdditionalPrompts promptObsNone = (1, PromptStop.noPrompt) ∧
    ((automateLogin envC1).extractRan = true ∧
      (automateLogin envC1).promptRun =
        some (handleAdditionalPrompts envC1.promptObs)) :=
  ⟨C8_prompt_handler_bounded.1 promptObsHappy,
   C8_prompt_handler_bounded.2.1
     (fun _ => ⟨"Callback reached. You can close this window.",
       "https://service.example/callback?code=q1&state=12345", false⟩)
     (by decide) (by decide),
   C8_prompt_handler_bounded.2.2.1 promptObsNone (by decide) (by decide)
     (by decide) (by decide),
   C8_prompt_handler_bounded.2.2.2 envC1 rfl rfl (by decide) rfl⟩

/-- Reduction of the exchange on a parsed body when no prior error and a
code are present. -/
theorem exchangeCodeForToken_ok (c now : String)
    (td : List (String × String)) :
    exchangeCodeForToken none (some c) (Except.ok td) now =
      (if tdMem td "refresh_token" = true then
        ExchangeResult.success (tdGet td "refresh_token")
          (tdGet td "access_token") (tdGet td "expires_in") (tdGet td "scope")
          ((tdGet td "token_type").getD "Bearer") now
      else
        ExchangeResult.failure "TOKEN_EXCHANGE_FAILED" (Payload.body td)) :=
  rfl

/-- C9: with a code in hand, a parsed body yields the normalized success
record exactly when it contains a refresh_token key; a body without one
yields TOKEN_EXCHANGE_FAILED carrying the raw body; a transport fault
yields REQUEST_FAILED carrying the fault text. -/
theorem C9_token_exchange_outcomes (code now : String)
    (net : Except String (List (String × String))) :
    (∀ td, net = Except.ok td →
      ((exchangeCodeForToken none (some code) net now =
          ExchangeResult.success (tdGet td "refresh_token")
            (tdGet td "access_token") (tdGet td "expires_in")
            (tdGet td "scope") ((tdGet td "token_type").getD "Bearer") now) ↔
        tdMem td "refresh_token" = true) ∧
      (tdMem td "refresh_token" = false →
        exchangeCodeForToken none (some code) net now =
          ExchangeResult.failure "TOKEN_EXCHANGE_FAILED" (Payload.body td))) ∧
    (∀ e, net = Except.error e →
      exchangeCodeForToken none (some code) net now =
        ExchangeResult.failure "REQUEST_FAILED" (Payload.text e)) := by
  constructor
  · intro td hnet
    subst hnet
    rw [exchangeCodeForToken_ok]
    constructor
    · constructor
      · intro h
        by_contra hm
        rw [Bool.not_eq_true] at hm
        rw [hm] at h
        simp only [Bool.false_eq_true, if_false] at h
        exact ExchangeResult.noConfusion h
      · intro hm
        rw [if_pos hm]
    · intro hm
      rw [hm]
      simp
  · intro e hnet
    subst hnet
    rfl

/-- C9 witness: a body without a refresh token and a transport fault, at
concrete inputs. -/
theorem C9_token_exchange_witness :
    exchangeCodeForToken none (some "c0")
        (Except.ok [("error_description", "invalid code")]) "t0" =
      ExchangeResult.failure "TOKEN_EXCHANGE_FAILED"
        (Payload.body [("error_description", "invalid code")]) ∧
    exchangeCodeForToken none (some "c0")
        (Except.error "connection timed out") "t0" =
      ExchangeResult.failure "REQUEST_FAILED"
        (Payload.text "connection timed out") :=
  ⟨((C9_token_exchange_outcomes "c0" "t0"
        (Except.ok [("error_description", "invalid code")])).1
      [("error_description", "invalid code")] rfl).2 (by decide),
   (C9_token_exchange_outcomes "c0" "t0"
        (Except.error "connection timed out")).2 "connection timed out" rfl⟩

/-- C10: in the success record only the refresh token is guaranteed
present: the record copies each field from the body by lookup (so the
access token, expiry and scope may be absent even on success), the token
type defaults to Bearer when the body omits it, and the refresh token
lookup is guaranteed to find a value. -/
theorem C10_success_record_fields (td : List (String × String))
    (code now : String) (h : tdMem td "refresh_token" = true) :
    exchangeCodeForToken none (some code) (Except.ok td) now =
      ExchangeResult.success (tdGet td "refresh_token")
        (tdGet td "access_token") (tdGet td "expires_in") (tdGet td "scope")
        ((tdGet td "token_type").getD "Bearer") now ∧
    (tdGet td "refresh_token").isSome = true ∧
    (tdGet td "token_type" = none →
      (tdGet td "token_type").getD "Bearer" = "Bearer") := by
  refine ⟨?_, tdGet_isSome_of_tdMem h, ?_⟩
  · rw [exchangeCodeForToken_ok, if_pos h]
  · intro hnone
    rw [hnone]
    rfl

/-- C10 witness: a body holding only a refresh token succeeds with every
optional field absent and the Bearer default. -/
theorem C10_success_record_witness :
    exchangeCodeForToken none (some "c0")
        (Except.ok [("refresh_token", "rt0")]) "t0" =
      ExchangeResult.success (some "rt0") none none none "Bearer" "t0" ∧
    (tdGet [("refresh_token", "rt0")] "refresh_token").isSome = true := by
  have h := C10_success_record_fields [("refresh_token", "rt0")] "c0" "t0"
    (by decide)
  exact ⟨h.1.trans (by decide), h.2.1⟩

/-- C3 witness: the dichotomy at the concrete failing-credentials
session. -/
theorem C3_exactly_one_witness :
    ((((automateLogin envC6).error = none ∧
        ∃ c, (automateLogin envC6).auth_code = some c ∧ c ≠ "") ∨
      ((automateLogin envC6).auth_code = none ∧
        ∃ m, (automateLogin envC6).error = some m)) ∧
    ¬((∃ c, (automateLogin envC6).auth_code = some c) ∧
      (∃ m, (automateLogin envC6).error = some m))) :=
  C3_exactly_one_of_code_or_error envC6
